import Mathlib

/-!
Shallow embedding of the Disnake bot template (src/main.py, src/utils/utils.py,
src/cogs/example.py) and proofs about its specification.

Python strings are modelled as Lean `String`; the Python string operations the
code uses (slicing, `replace`, `endswith`, `title`, `join`) are defined below
on the character list underlying the string.  Python exceptions are modelled by
an explicit `PyExn` type and fallible evaluation by `Except PyExn`.
-/

namespace DisnakeBot

/-- Python exceptions that the modelled code can raise or record. -/
inductive PyExn where
  | attributeError (attrPath : String)
  | nameError (n : String)
  | extensionAlreadyLoaded (modName : String)
  | otherExn (msg : String)
  deriving DecidableEq, Repr

/-- Embeds the Python slice s[:-n] (all characters but the last n). -/
def pySliceDropRight (s : String) (n : Nat) : String :=
  ⟨s.data.take (s.data.length - n)⟩

/-- Embeds Python s.endswith(suffix). -/
def pyEndsWith (s suffix : String) : Bool :=
  suffix.data.isSuffixOf s.data

/-- Worker for `pyReplace`: replaces every occurrence of `pat` by `rep`,
scanning left to right, as Python str.replace does for nonempty patterns.  The
fuel argument makes the recursion structural; each step consumes at least one
input character, so fuel equal to the input length never runs out. -/
def replaceGo (pat rep : List Char) : Nat → List Char → List Char
  | _, [] => []
  | 0, l => l
  | fuel + 1, c :: cs =>
    if pat.isPrefixOf (c :: cs) then
      rep ++ replaceGo pat rep fuel (cs.drop (pat.length - 1))
    else
      c :: replaceGo pat rep fuel cs

/-- Embeds Python s.replace(pat, rep) for a nonempty pattern (the code only
replaces the nonempty patterns "/", "_" and "guild"). -/
def pyReplace (s pat rep : String) : String :=
  ⟨replaceGo pat.data rep.data s.data.length s.data⟩

/-- Embeds Python os.path.join(a, b) for a relative second component b. -/
def osPathJoin (a b : String) : String :=
  if a = "" then b
  else if a.data.getLast? = some '/' then a ++ b
  else a ++ "/" ++ b

/-- Embeds disnake.Color as far as the code uses it. -/
inductive DColor where
  | red
  deriving DecidableEq, Repr

/-- Embeds the disnake.Embed fields the code sets. -/
structure Embed where
  title : String
  description : String
  color : DColor
  deriving DecidableEq, Repr

/-- Embeds ErrorEmbed.create_error_embed from src/main.py: a fixed title
"__An error occurred__", a description starting with an "Error:" block and,
when additional_info is truthy (not None and not empty), an
"Additional info:" block. -/
def create_error_embed (error : String) (additional_info : Option String) : Embed :=
  { title := "__An error occurred__"
  , description :=
      "**Error:**\n" ++ error ++ "\n\n" ++
        (match additional_info with
         | some s => if s = "" then "" else "**Additional info:**\n" ++ s
         | none => "")
  , color := DColor.red }

/-- Parsed JSON documents, the result type of json.load. -/
inductive Json where
  | null
  | jbool (b : Bool)
  | jnum (n : Int)
  | jstr (s : String)
  | jarr (xs : List Json)
  | jobj (fields : List (String × Json))

/-- Key lookup in a parsed JSON object (Python dict .get). -/
def jlookup : List (String × Json) → String → Option Json
  | [], _ => none
  | (k, v) :: rest, key => if k = key then some v else jlookup rest key

/-- Embeds jsonschema.validate of a document against ConfigManager.CONFIG_SCHEMA
from src/utils/utils.py: the instance must be an object ("type": "object"),
the key "TOKEN" must be present ("required": ["TOKEN"]) and its value must be
a string ("properties": \x7b"TOKEN": \x7b"type": "string"\x7d\x7d). -/
def validateConfigSchema (doc : Json) : Bool :=
  match doc with
  | Json.jobj fields =>
    match jlookup fields "TOKEN" with
    | some (Json.jstr _) => true
    | some _ => false
    | none => false
  | _ => false

/-- The in-memory state of a ConfigManager: self.config, initialised to \x7b\x7d. -/
structure ConfigState where
  config : Json

/-- The initial self.config = \x7b\x7d of ConfigManager.__init__. -/
def initConfigState : ConfigState := ⟨Json.jobj []⟩

/-- What reading and parsing the configuration file can yield: the file is
missing, the file is not valid JSON, or json.load returns a document. -/
inductive ConfigRead where
  | missing
  | invalidJson
  | parsed (doc : Json)

/-- The outcome logged by ConfigManager.load_configs (one branch per log line). -/
inductive ConfigLoadOutcome where
  | loadedOk
  | fileNotFound
  | jsonDecodeError
  | schemaError
  deriving DecidableEq, Repr

/-- Embeds ConfigManager.load_configs from src/utils/utils.py: a missing file
or a JSON decode failure is caught and logged, leaving self.config unchanged;
a document that fails schema validation raises ValidationError, which is caught
and logged, leaving self.config unchanged; only a document that validates is
assigned to self.config. -/
def load_configs (r : ConfigRead) (st : ConfigState) : ConfigState × ConfigLoadOutcome :=
  match r with
  | ConfigRead.missing => (st, ConfigLoadOutcome.fileNotFound)
  | ConfigRead.invalidJson => (st, ConfigLoadOutcome.jsonDecodeError)
  | ConfigRead.parsed doc =>
    if validateConfigSchema doc then ({ config := doc }, ConfigLoadOutcome.loadedOk)
    else (st, ConfigLoadOutcome.schemaError)

/-- Embeds ConfigManager.get_token: self.config.get("TOKEN"). -/
def get_token (st : ConfigState) : Option Json :=
  match st.config with
  | Json.jobj fields => jlookup fields "TOKEN"
  | _ => none

/-- The extensions already loaded on the bot (disnake keeps them keyed by the
dotted module name passed to load_extension). -/
structure BotState where
  loaded : List String

/-- The behaviour of actually importing a module and running its setup
function, as a map from the dotted module name to an optional exception. -/
def LoadEnv : Type := String → Option PyExn

/-- Embeds disnake InteractionBot.load_extension: raises ExtensionAlreadyLoaded
when the name is already loaded, otherwise imports the module (which may raise)
and on success records the name as loaded. -/
def load_extension (env : LoadEnv) (bot : BotState) (name : String) :
    Except PyExn BotState :=
  if name ∈ bot.loaded then Except.error (PyExn.extensionAlreadyLoaded name)
  else
    match env name with
    | none => Except.ok ⟨bot.loaded ++ [name]⟩
    | some e => Except.error e

/-- The mutable fields of a CogManager: self.path, self.cogs, self.errors
(the errors dict is kept as an insertion-ordered association list). -/
structure CogManager where
  path : String
  cogs : List String
  errors : List (String × PyExn)

/-- Embeds CogManager.__init__: self.path = os.path.join(os.getcwd(), path)
with the default path "cogs", and empty self.cogs / self.errors. -/
def CogManager.init (cwd : String) : CogManager :=
  { path := osPathJoin cwd "cogs", cogs := [], errors := [] }

/-- A CogManager with a given path and empty collections. -/
def freshCogManager (path : String) : CogManager :=
  { path := path, cogs := [], errors := [] }

/-- Python dict assignment d[k] = v on an insertion-ordered association list:
overwrite in place when the key exists, append otherwise. -/
def dictInsert {κ α : Type} [BEq κ] (d : List (κ × α)) (k : κ) (v : α) :
    List (κ × α) :=
  if d.any (fun p => p.1 == k) then
    d.map (fun p => if p.1 == k then (k, v) else p)
  else d ++ [(k, v)]

/-- The dotted module name CogManager.load_cogs passes to load_extension for a
candidate file: self.path.replace('/', '.')[:-1] joined by '.' to file[:-3]. -/
def modulePath (path file : String) : String :=
  pySliceDropRight (pyReplace path "/" ".") 1 ++ "." ++ pySliceDropRight file 3

/-- The key under which CogManager.load_cogs records a failure for a candidate
file: the literal prefix "cogs." followed by file[:-3]. -/
def errorKey (file : String) : String :=
  "cogs." ++ pySliceDropRight file 3

/-- Embeds the loop body of CogManager.load_cogs over the directory listing:
for each file ending in ".py", attempt load_extension; on success append the
file name to self.cogs, on any exception record it in self.errors under
"cogs." + file[:-3] and continue with the next candidate. -/
def loadCogsAux (env : LoadEnv) : List String → CogManager → BotState →
    CogManager × BotState
  | [], m, bot => (m, bot)
  | f :: fs, m, bot =>
    if pyEndsWith f ".py" then
      match load_extension env bot (modulePath m.path f) with
      | Except.ok bot2 => loadCogsAux env fs { m with cogs := m.cogs ++ [f] } bot2
      | Except.error e =>
          loadCogsAux env fs { m with errors := dictInsert m.errors (errorKey f) e } bot
    else loadCogsAux env fs m bot

/-- Embeds CogManager.load_cogs from src/utils/utils.py: iterate over
os.listdir(self.path) and return (self.cogs, self.errors), i.e. the cogs and
errors fields of the final manager state. -/
def load_cogs (env : LoadEnv) (dirFiles : List String) (m : CogManager)
    (bot : BotState) : CogManager × BotState :=
  loadCogsAux env dirFiles m bot

/-- First-match key lookup in an association list (Python dict .get for dicts
whose keys are unique). -/
def dictGet {κ α : Type} [BEq κ] (d : List (κ × α)) (k : κ) : Option α :=
  match d.find? (fun p => p.1 == k) with
  | some p => some p.2
  | none => none

set_option maxHeartbeats 1600000 in
/-- The exact runtime classes from disnake.ext.commands.errors that appear as
keys of the error_map dict in Bot._get_error_embed, plus a constructor for any
other error class (the dict lookup falls through to the default for it). -/
inductive ErrTy where
  | ExpectedClosingQuoteError
  | ConversionError
  | MissingRequiredArgument
  | TooManyArguments
  | BadArgument
  | CheckFailure
  | CommandNotFound
  | DisabledCommand
  | CommandInvokeError
  | CommandOnCooldown
  | MaxConcurrencyReached
  | UserInputError
  | ObjectNotFound
  | MemberNotFound
  | GuildNotFound
  | UserNotFound
  | ChannelNotFound
  | ThreadNotFound
  | ChannelNotReadable
  | BadColourArgument
  | RoleNotFound
  | BadInviteArgument
  | EmojiNotFound
  | GuildStickerNotFound
  | GuildScheduledEventNotFound
  | PartialEmojiConversionFailure
  | BadBoolArgument
  | LargeIntConversionFailure
  | MissingRole
  | BotMissingRole
  | MissingAnyRole
  | BotMissingAnyRole
  | MissingPermissions
  | BotMissingPermissions
  | NSFWChannelRequired
  | BadUnionArgument
  | BadLiteralArgument
  | ArgumentParsingError
  | UnexpectedQuoteError
  | InvalidEndOfQuotedStringError
  | ExtensionError
  | ExtensionAlreadyLoaded
  | ExtensionNotLoaded
  | NoEntryPointError
  | ExtensionFailed
  | ExtensionNotFound
  | CommandRegistrationError
  | FlagError
  | TooManyFlags
  | BadFlagArgument
  | MissingRequiredFlag
  | MissingFlagArgument
  | PrivateMessageOnly
  | NoPrivateMessage
  | NotOwner
  | CheckAnyFailure
  | MessageNotFound
  | BadColorArgument
  | OtherErrorClass (className : String)
  deriving Repr

/-- A numeric tag distinguishing the error classes of the table. -/
def ErrTy.code : ErrTy → Nat
  | ErrTy.ExpectedClosingQuoteError => 0
  | ErrTy.ConversionError => 1
  | ErrTy.MissingRequiredArgument => 2
  | ErrTy.TooManyArguments => 3
  | ErrTy.BadArgument => 4
  | ErrTy.CheckFailure => 5
  | ErrTy.CommandNotFound => 6
  | ErrTy.DisabledCommand => 7
  | ErrTy.CommandInvokeError => 8
  | ErrTy.CommandOnCooldown => 9
  | ErrTy.MaxConcurrencyReached => 10
  | ErrTy.UserInputError => 11
  | ErrTy.ObjectNotFound => 12
  | ErrTy.MemberNotFound => 13
  | ErrTy.GuildNotFound => 14
  | ErrTy.UserNotFound => 15
  | ErrTy.ChannelNotFound => 16
  | ErrTy.ThreadNotFound => 17
  | ErrTy.ChannelNotReadable => 18
  | ErrTy.BadColourArgument => 19
  | ErrTy.RoleNotFound => 20
  | ErrTy.BadInviteArgument => 21
  | ErrTy.EmojiNotFound => 22
  | ErrTy.GuildStickerNotFound => 23
  | ErrTy.GuildScheduledEventNotFound => 24
  | ErrTy.PartialEmojiConversionFailure => 25
  | ErrTy.BadBoolArgument => 26
  | ErrTy.LargeIntConversionFailure => 27
  | ErrTy.MissingRole => 28
  | ErrTy.BotMissingRole => 29
  | ErrTy.MissingAnyRole => 30
  | ErrTy.BotMissingAnyRole => 31
  | ErrTy.MissingPermissions => 32
  | ErrTy.BotMissingPermissions => 33
  | ErrTy.NSFWChannelRequired => 34
  | ErrTy.BadUnionArgument => 35
  | ErrTy.BadLiteralArgument => 36
  | ErrTy.ArgumentParsingError => 37
  | ErrTy.UnexpectedQuoteError => 38
  | ErrTy.InvalidEndOfQuotedStringError => 39
  | ErrTy.ExtensionError => 40
  | ErrTy.ExtensionAlreadyLoaded => 41
  | ErrTy.ExtensionNotLoaded => 42
  | ErrTy.NoEntryPointError => 43
  | ErrTy.ExtensionFailed => 44
  | ErrTy.ExtensionNotFound => 45
  | ErrTy.CommandRegistrationError => 46
  | ErrTy.FlagError => 47
  | ErrTy.TooManyFlags => 48
  | ErrTy.BadFlagArgument => 49
  | ErrTy.MissingRequiredFlag => 50
  | ErrTy.MissingFlagArgument => 51
  | ErrTy.PrivateMessageOnly => 52
  | ErrTy.NoPrivateMessage => 53
  | ErrTy.NotOwner => 54
  | ErrTy.CheckAnyFailure => 55
  | ErrTy.MessageNotFound => 56
  | ErrTy.BadColorArgument => 57
  | ErrTy.OtherErrorClass _ => 58

/-- Class-identity comparison of error classes, the equality Python uses to
look a type up in a type-keyed dict. -/
def ErrTy.beq : ErrTy → ErrTy → Bool
  | ErrTy.OtherErrorClass a, ErrTy.OtherErrorClass b => a == b
  | a, b => a.code == b.code

instance : BEq ErrTy := ⟨ErrTy.beq⟩

/-- The value of a Python attribute as far as the f-strings of the error table
consume it: a string, a number (floats are abstracted by the decimal rendering
a format slot produces for them), or a list of strings. -/
inductive PyAttr where
  | pstr (v : String)
  | pnum (rendered : String)
  | pstrs (vs : List String)
  deriving DecidableEq, Repr

/-- A disnake command-error instance: its exact class and its attribute map
(an attribute path absent from the map raises AttributeError on access, as on
the real instances, which only carry the attributes of their own class). -/
structure PyError where
  ty : ErrTy
  attr : String → Option PyAttr

/-- Python attribute access error.path: the value, or AttributeError when the
instance does not carry the attribute. -/
def PyError.getAttr (e : PyError) (a : String) : Except PyExn PyAttr :=
  match e.attr a with
  | some v => Except.ok v
  | none => Except.error (PyExn.attributeError a)

/-- Embeds str(v) for a value in an f-string slot without a conversion. -/
def pyStrOf : PyAttr → String
  | PyAttr.pstr v => v
  | PyAttr.pnum r => r
  | PyAttr.pstrs vs =>
    "[" ++ String.intercalate ", " (vs.map fun v => "\x27" ++ v ++ "\x27") ++ "]"

/-- Embeds repr(v) for a value in an f-string slot with the !r conversion. -/
def pyReprOf : PyAttr → String
  | PyAttr.pstr v => "\x27" ++ v ++ "\x27"
  | PyAttr.pnum r => r
  | PyAttr.pstrs vs =>
    "[" ++ String.intercalate ", " (vs.map fun v => "\x27" ++ v ++ "\x27") ++ "]"

/-- Embeds format(v, ".2f") for the \x7berror.retry_after:.2f\x7d slot; the
two-decimal rendering of the float is abstracted by the carried rendering. -/
def pyFormatDot2f : PyAttr → Except PyExn String
  | PyAttr.pnum r => Except.ok r
  | PyAttr.pstr _ => Except.error (PyExn.otherExn "ValueError: Unknown format code")
  | PyAttr.pstrs _ => Except.error (PyExn.otherExn "TypeError: unsupported format string")

/-- Embeds len(v): defined for sequences, TypeError otherwise. -/
def pyLen : PyAttr → Except PyExn Nat
  | PyAttr.pstr v => Except.ok v.data.length
  | PyAttr.pstrs vs => Except.ok vs.length
  | PyAttr.pnum _ => Except.error (PyExn.otherExn "TypeError: object has no len()")

/-- Embeds iterating a value as strings, as sep.join(v) does: a list of
strings yields its elements, a string yields its characters, a number raises
TypeError. -/
def pyIterStrs : PyAttr → Except PyExn (List String)
  | PyAttr.pstr v => Except.ok (v.data.map fun c => String.mk [c])
  | PyAttr.pstrs vs => Except.ok vs
  | PyAttr.pnum _ => Except.error (PyExn.otherExn "TypeError: can only join an iterable")

/-- Embeds Python sep.join(vs). -/
def pyJoinWith (sep : String) (vs : List String) : String :=
  match vs with
  | [] => ""
  | v :: rest => rest.foldl (fun acc x => acc ++ sep ++ x) v

/-- Worker for `pyTitle`: the Bool records whether the previous character was
alphabetic (cased). -/
def pyTitleGo : Bool → List Char → List Char
  | _, [] => []
  | prevCased, c :: cs =>
    if c.isAlpha then
      (if prevCased then c.toLower else c.toUpper) :: pyTitleGo true cs
    else c :: pyTitleGo false cs

/-- Embeds Python s.title(): the first alphabetic character of each run is
uppercased and the rest lowercased. -/
def pyTitle (s : String) : String := ⟨pyTitleGo false s.data⟩

/-- Embeds the comprehension body of the MissingPermissions /
BotMissingPermissions entries:
backtick + perm.replace("_", " ").replace("guild", "server").title() + backtick. -/
def permDisplay (perm : String) : String :=
  "`" ++ pyTitle (pyReplace (pyReplace perm "_" " ") "guild" "server") ++ "`"

/-- Embeds the evaluation of the error_map dict literal of
Bot._get_error_embed in src/main.py on a given error instance.  A Python dict
literal evaluates every entry in source order before the dict exists, so every
f-string detail below is computed eagerly on the one instance e, whatever its
class; the first attribute access that the instance does not support raises
AttributeError out of the whole construction.  The entries are listed exactly
in source order; errors.DisabledCommand appears twice, as in the source. -/
def errorMapEntries (e : PyError) : Except PyExn (List (ErrTy × String × String)) := do
  let d01 := "Closing quote: " ++ pyStrOf (← e.getAttr "close_quote")
  let d02 := "Failed to convert argument: " ++ pyStrOf (← e.getAttr "converter") ++
    "\nOriginal Exception: " ++ pyStrOf (← e.getAttr "original")
  let d03 := "The argument `" ++ pyStrOf (← e.getAttr "param.name") ++
    "` is required but was not provided."
  let d09 := "The command raised an error: " ++ pyStrOf (← e.getAttr "original")
  let d10 := "You need to wait `" ++ (← pyFormatDot2f (← e.getAttr "retry_after")) ++
    "` seconds before using this command again."
  let d11 := "This command is currently being used by too many users (" ++
    pyStrOf (← e.getAttr "number") ++ "). Please try again later."
  let d13 := "The specified object could not be found. Object: `" ++
    pyStrOf (← e.getAttr "argument") ++ "`"
  let d14 := "The specified member `" ++ pyStrOf (← e.getAttr "argument") ++
    "` could not be found."
  let d15 := "The specified guild `" ++ pyStrOf (← e.getAttr "argument") ++
    "` could not be found."
  let d16 := "The specified user `" ++ pyStrOf (← e.getAttr "argument") ++
    "` could not be found."
  let d17 := "The specified channel `" ++ pyStrOf (← e.getAttr "argument") ++
    "` could not be found."
  let d18 := "The specified thread `" ++ pyStrOf (← e.getAttr "argument") ++
    "` could not be found."
  let d19 := "The bot cannot read messages in `" ++
    pyStrOf (← e.getAttr "argument.mention") ++ "` (`" ++
    pyStrOf (← e.getAttr "argument.id") ++ "`)."
  let d20 := "The specified color `" ++ pyStrOf (← e.getAttr "argument") ++
    "` is not valid."
  let d21 := "The specified role `" ++ pyStrOf (← e.getAttr "argument") ++
    "` could not be found."
  let d22 := "The specified invite link `" ++ pyStrOf (← e.getAttr "argument") ++
    "` is invalid or expired."
  let d23 := "The specified emoji `" ++ pyStrOf (← e.getAttr "argument") ++
    "` could not be found."
  let d24 := "The specified sticker `" ++ pyStrOf (← e.getAttr "argument") ++
    "` could not be found."
  let d25 := "The specified scheduled event `" ++ pyStrOf (← e.getAttr "argument") ++
    "` could not be found."
  let d26 := "The specified emoji `" ++ pyStrOf (← e.getAttr "argument") ++
    "` could not be converted."
  let d27 := "The specified boolean argument `" ++ pyStrOf (← e.getAttr "argument") ++
    "` is not recognized."
  let d28 := "The specified argument `" ++ pyStrOf (← e.getAttr "argument") ++
    "` could not be converted to an integer."
  let d30 := "You are missing `" ++ pyReprOf (← e.getAttr "missing_role") ++
    "` to run this command."
  let d31 := "The bot is missing `" ++ pyReprOf (← e.getAttr "missing_role") ++
    "` to run this command."
  let d32 := "You are missing at least one of these roles to run this command: " ++
    pyJoinWith ", " (← pyIterStrs (← e.getAttr "missing_roles"))
  let d33 := "The bot is missing at least one of these roles to run this command: " ++
    pyJoinWith ", " (← pyIterStrs (← e.getAttr "missing_roles"))
  let d34 := "You are missing " ++
    pyJoinWith ", " ((← pyIterStrs (← e.getAttr "missing_permissions")).map permDisplay) ++
    " permission(s) to run this command."
  let d35 := "The bot is missing " ++
    pyJoinWith ", " ((← pyIterStrs (← e.getAttr "missing_permissions")).map permDisplay) ++
    " permission(s) to run this command."
  let d40 := "Unexpected quote mark: " ++ pyReprOf (← e.getAttr "quote") ++
    " found in input."
  let d41 := "Expected space after closing quote but received: " ++
    pyReprOf (← e.getAttr "char") ++ "."
  let d42 := "An error occurred with an extension: " ++ pyStrOf (← e.getAttr "name") ++ "."
  let d43 := "The extension `" ++ pyStrOf (← e.getAttr "name") ++ "` is already loaded."
  let d44 := "The extension `" ++ pyStrOf (← e.getAttr "name") ++ "` has not been loaded."
  let d45 := "The extension `" ++ pyStrOf (← e.getAttr "name") ++
    "` has no \x27setup\x27 function."
  let d46 := "The extension `" ++ pyStrOf (← e.getAttr "name") ++ "` failed to load: " ++
    pyStrOf (← e.getAttr "original")
  let d47 := "The extension `" ++ pyStrOf (← e.getAttr "name") ++ "` could not be found."
  let d48 := "The command `" ++ pyStrOf (← e.getAttr "name") ++
    "` is already an existing command or alias."
  let d50 := "Flag `" ++ pyStrOf (← e.getAttr "flag.name") ++
    "` received too many values. Expected " ++ pyStrOf (← e.getAttr "flag.max_args") ++
    " but received " ++ toString (← pyLen (← e.getAttr "values")) ++ "."
  let d51 := "Could not convert to `" ++ pyStrOf (← e.getAttr "flag.annotation.__name__") ++
    "` for flag `" ++ pyStrOf (← e.getAttr "flag.name") ++ "`."
  let d52 := "Flag `" ++ pyStrOf (← e.getAttr "flag.name") ++ "` is required and missing."
  let d53 := "Flag `" ++ pyStrOf (← e.getAttr "flag.name") ++ "` does not have an argument."
  let d58 := "The specified message `" ++ pyStrOf (← e.getAttr "argument") ++
    "` could not be found."
  let d59 := "The specified color `" ++ pyStrOf (← e.getAttr "argument") ++
    "` is not valid."
  Except.ok
    [ (ErrTy.ExpectedClosingQuoteError, "Expected closing quote", d01)
    , (ErrTy.ConversionError, "Conversion error", d02)
    , (ErrTy.MissingRequiredArgument, "Missing required argument", d03)
    , (ErrTy.TooManyArguments, "Too many arguments",
        "You have provided too many arguments for this command.")
    , (ErrTy.BadArgument, "Bad argument",
        "One or more arguments provided are invalid.")
    , (ErrTy.CheckFailure, "Check failure",
        "You do not have permission to run this command.")
    , (ErrTy.CommandNotFound, "Command not found",
        "The command you tried to invoke does not exist.")
    , (ErrTy.DisabledCommand, "Disabled command",
        "This command is currently disabled.")
    , (ErrTy.CommandInvokeError, "Command invocation error", d09)
    , (ErrTy.CommandOnCooldown, "Command on cooldown", d10)
    , (ErrTy.MaxConcurrencyReached, "Max concurrency reached", d11)
    , (ErrTy.UserInputError, "User input error",
        "There was a problem with your input. Please check your command and try again.")
    , (ErrTy.ObjectNotFound, "Object not found", d13)
    , (ErrTy.MemberNotFound, "Member not found", d14)
    , (ErrTy.GuildNotFound, "Guild not found", d15)
    , (ErrTy.UserNotFound, "User not found", d16)
    , (ErrTy.ChannelNotFound, "Channel not found", d17)
    , (ErrTy.ThreadNotFound, "Thread not found", d18)
    , (ErrTy.ChannelNotReadable, "Channel not readable", d19)
    , (ErrTy.BadColourArgument, "Invalid color argument", d20)
    , (ErrTy.RoleNotFound, "Role not found", d21)
    , (ErrTy.BadInviteArgument, "Invalid invite", d22)
    , (ErrTy.EmojiNotFound, "Emoji not found", d23)
    , (ErrTy.GuildStickerNotFound, "Sticker not found", d24)
    , (ErrTy.GuildScheduledEventNotFound, "Scheduled event not found", d25)
    , (ErrTy.PartialEmojiConversionFailure, "Partial emoji conversion failure", d26)
    , (ErrTy.BadBoolArgument, "Bad boolean argument", d27)
    , (ErrTy.LargeIntConversionFailure, "Large integer conversion failure", d28)
    , (ErrTy.DisabledCommand, "Disabled command",
        "This command is currently disabled.")
    , (ErrTy.MissingRole, "Missing role", d30)
    , (ErrTy.BotMissingRole, "Bot missing role", d31)
    , (ErrTy.MissingAnyRole, "Missing any role", d32)
    , (ErrTy.BotMissingAnyRole, "Bot missing any role", d33)
    , (ErrTy.MissingPermissions, "Missing permissions", d34)
    , (ErrTy.BotMissingPermissions, "Bot missing permissions", d35)
    , (ErrTy.NSFWChannelRequired, "NSFW channel required",
        "This command can only be used in NSFW channels.")
    , (ErrTy.BadUnionArgument, "Bad union argument",
        "The argument could not be converted to any of the expected types.")
    , (ErrTy.BadLiteralArgument, "Bad literal argument",
        "The argument did not match any of the expected literal values.")
    , (ErrTy.ArgumentParsingError, "Argument parsing error",
        "There was an issue while parsing your input.")
    , (ErrTy.UnexpectedQuoteError, "Unexpected quote error", d40)
    , (ErrTy.InvalidEndOfQuotedStringError, "Invalid end of quoted string", d41)
    , (ErrTy.ExtensionError, "Extension error", d42)
    , (ErrTy.ExtensionAlreadyLoaded, "Extension already loaded", d43)
    , (ErrTy.ExtensionNotLoaded, "Extension not loaded", d44)
    , (ErrTy.NoEntryPointError, "No entry point error", d45)
    , (ErrTy.ExtensionFailed, "Extension failed", d46)
    , (ErrTy.ExtensionNotFound, "Extension not found", d47)
    , (ErrTy.CommandRegistrationError, "Command registration error", d48)
    , (ErrTy.FlagError, "Flag error",
        "There was an issue with parsing flags.")
    , (ErrTy.TooManyFlags, "Too many flags", d50)
    , (ErrTy.BadFlagArgument, "Bad flag argument", d51)
    , (ErrTy.MissingRequiredFlag, "Missing required flag", d52)
    , (ErrTy.MissingFlagArgument, "Missing flag argument", d53)
    , (ErrTy.PrivateMessageOnly, "Private message only",
        "This command can only be used in a private message.")
    , (ErrTy.NoPrivateMessage, "No private message",
        "This command cannot be used in a private message.")
    , (ErrTy.NotOwner, "Not owner",
        "You are not the owner of this bot.")
    , (ErrTy.CheckAnyFailure, "Check Failed",
        "You do not have permission to run this command.")
    , (ErrTy.MessageNotFound, "Message not found", d58)
    , (ErrTy.BadColorArgument, "Bad color argument", d59)
    ]

/-- The default_error pair of Bot._get_error_embed. -/
def defaultErrorPair : String × String :=
  ("Unknown error", "An unexpected error occurred. Please try again later.")

/-- Embeds Bot._get_error_embed from src/main.py: build the error_map dict
(evaluating every entry on the given instance), look the instance's exact type
up with the default_error fallback, and wrap the pair in create_error_embed
(the title as the first positional argument, the detail as additional_info). -/
def get_error_embed (e : PyError) : Except PyExn Embed := do
  let entries ← errorMapEntries e
  let errorMap := entries.foldl (fun d ent => dictInsert d ent.1 ent.2) []
  let p := (dictGet errorMap e.ty).getD defaultErrorPair
  Except.ok (create_error_embed p.1 (some p.2))

/-- The message sent back by the error handler: the embed, and whether it is
visible only to the invoking user. -/
structure SentMessage where
  embed : Embed
  ephemeral : Bool
  deriving DecidableEq, Repr

/-- Embeds Bot.on_slash_command_error from src/main.py: build the embed via
_get_error_embed, then send it with ephemeral=True.  An exception raised while
building the embed propagates before anything is sent. -/
def on_slash_command_error (e : PyError) : Except PyExn SentMessage := do
  let embed ← get_error_embed e
  Except.ok { embed := embed, ephemeral := true }

/-- The Python builtin names referenced by the annotations of
src/utils/utils.py. -/
def pyBuiltinNames : List String :=
  ["str", "int", "float", "bool", "list", "dict", "tuple", "None", "Exception", "len"]

/-- The module-global names bound by the import statements at the top of
src/utils/utils.py: import os / import json / import logging /
from typing import Any, Dict, Tuple / from disnake.ext import commands /
from jsonschema import validate, ValidationError.  Optional is not among them. -/
def utilsModuleGlobals : List String :=
  ["os", "json", "logging", "Any", "Dict", "Tuple", "commands", "validate", "ValidationError"]

/-- Evaluates a list of names against an environment, as Python does for each
name appearing in a function signature annotation at definition time: the
first unbound name raises NameError. -/
def evalNames (env : List String) : List String → Except PyExn Unit
  | [] => Except.ok ()
  | n :: rest =>
    if env.contains n || pyBuiltinNames.contains n then evalNames env rest
    else Except.error (PyExn.nameError n)

/-- The names evaluated, in source order, by the signature annotations of the
class CogManager body in src/utils/utils.py: __init__ (commands, Any, str),
_setup_logger (logging), load_cogs (Tuple, list, str, Dict, str, Exception). -/
def cogManagerSignatureNames : List String :=
  ["commands", "Any", "str", "logging", "Tuple", "list", "str", "Dict", "str", "Exception"]

/-- The names evaluated, in source order, by the signature annotations of the
class ConfigManager body in src/utils/utils.py: __init__ (commands, Any, str),
_setup_logger (logging), load_configs (None), get_token (Optional, str). -/
def configManagerSignatureNames : List String :=
  ["commands", "Any", "str", "logging", "None", "Optional", "str"]

/-- Embeds executing the module body of src/utils/utils.py on import: the
imports bind utilsModuleGlobals, then the two class bodies evaluate
their signature annotations in source order.  The first name that is neither a
module global nor a builtin raises NameError and aborts the import. -/
def importUtilsModule : Except PyExn Unit := do
  evalNames utilsModuleGlobals cogManagerSignatureNames
  evalNames utilsModuleGlobals configManagerSignatureNames

/-- Embeds executing the module body of src/main.py on import: the disnake and
utils.logger imports succeed (utils/logger.py imports Optional from typing),
then from utils.utils import CogManager executes the utils.utils module body,
whose failure propagates; only if all imports succeed does the rest of the
module body run. -/
def importMainModule : Except PyExn Unit := do
  importUtilsModule

/-- Embeds the reply of ExampleCog.hello in src/cogs/example.py:
inter.send("Hello!"). -/
def helloReply : String := "Hello!"

/-- A disnake MissingRole error instance for the role "Admin": it carries the
missing_role attribute of its class and, like the real instance, none of the
attributes of the other error classes of the table. -/
def missingRoleAdmin : PyError :=
  { ty := ErrTy.MissingRole
  , attr := fun a => if a = "missing_role" then some (PyAttr.pstr "Admin") else none }

/-- The claim-side well-formedness predicate for C4: the document lacks a
TOKEN field, or its TOKEN field is not a string (a non-object document has no
fields at all). -/
def docTokenMissingOrNonString (doc : Json) : Bool :=
  match doc with
  | Json.jobj fields =>
    match jlookup fields "TOKEN" with
    | none => true
    | some (Json.jstr _) => false
    | some _ => true
  | _ => true

/-- The Bool-valued predicate selecting the candidates of a loading pass that
load successfully: the file ends in ".py" and importing its derived dotted
module name raises nothing. -/
def loadedPred (env : LoadEnv) (path : String) (f : String) : Bool :=
  pyEndsWith f ".py" && (env (modulePath path f)).isNone

/-- The failures-dict entry a candidate file contributes in a loading pass:
none for a non-".py" file and for a unit that loads, and the recorded
(key, exception) pair for a unit whose load attempt raises. -/
def failEntry (env : LoadEnv) (path : String) (f : String) :
    Option (String × PyExn) :=
  if pyEndsWith f ".py" then
    match env (modulePath path f) with
    | some e => some (errorKey f, e)
    | none => none
  else none

lemma replaceGo_single (a b : Char) :
    ∀ (fuel : Nat) (l : List Char), l.length ≤ fuel →
      replaceGo [a] [b] fuel l = l.map (fun c => if c = a then b else c) := by
  intro fuel
  induction fuel with
  | zero =>
    intro l hl
    cases l with
    | nil => rfl
    | cons c cs => simp at hl
  | succ n ih =>
    intro l hl
    cases l with
    | nil => rfl
    | cons c cs =>
      simp only [replaceGo, List.map_cons]
      by_cases hc : c = a
      · have hpre : ([a].isPrefixOf (c :: cs)) = true := by
          simp [List.isPrefixOf, hc]
        rw [hpre]
        simp only [if_true, List.length_cons, Nat.add_sub_cancel, List.drop_zero]
        have hcs : cs.length ≤ n := by simpa using hl
        rw [if_pos hc]
        simp [ih cs hcs]
      · have hpre : ([a].isPrefixOf (c :: cs)) = false := by
          simp [List.isPrefixOf]
          intro heq
          exact absurd heq.symm hc
        rw [hpre]
        have hcs : cs.length ≤ n := by simpa using hl
        simp [ih cs hcs, hc]

lemma pyReplace_slash_data (s : String) :
    (pyReplace s "/" ".").data
      = s.data.map (fun c => if c = '/' then '.' else c) :=
  replaceGo_single '/' '.' s.data.length s.data (Nat.le_refl _)

lemma pyEndsWith_py_decomp (f : String) (hf : pyEndsWith f ".py" = true) :
    f.data = (pySliceDropRight f 3).data ++ ['.', 'p', 'y'] := by
  unfold pyEndsWith at hf
  have hsuf : ".py".data <:+ f.data := List.isSuffixOf_iff_suffix.mp hf
  obtain ⟨pre, hpre⟩ := hsuf
  show f.data = f.data.take (f.data.length - 3) ++ ['.', 'p', 'y']
  have h3 : ".py".data = ['.', 'p', 'y'] := rfl
  rw [h3] at hpre
  rw [← hpre]
  have hlen : (pre ++ ['.', 'p', 'y']).length - 3 = pre.length := by simp
  rw [hlen, List.take_left]

lemma stem_inj (f g : String) (hf : pyEndsWith f ".py" = true)
    (hg : pyEndsWith g ".py" = true)
    (h : pySliceDropRight f 3 = pySliceDropRight g 3) : f = g := by
  apply String.ext
  rw [pyEndsWith_py_decomp f hf, pyEndsWith_py_decomp g hg, h]

lemma modulePath_inj (path f g : String) (hf : pyEndsWith f ".py" = true)
    (hg : pyEndsWith g ".py" = true)
    (h : modulePath path f = modulePath path g) : f = g := by
  apply stem_inj f g hf hg
  unfold modulePath at h
  have hd := congrArg String.data h
  rw [String.data_append, String.data_append, String.data_append,
    String.data_append] at hd
  exact String.ext (List.append_cancel_left hd)

lemma errorKey_inj (f g : String) (hf : pyEndsWith f ".py" = true)
    (hg : pyEndsWith g ".py" = true) (h : errorKey f = errorKey g) : f = g := by
  apply stem_inj f g hf hg
  unfold errorKey at h
  have hd := congrArg String.data h
  rw [String.data_append, String.data_append] at hd
  exact String.ext (List.append_cancel_left hd)

lemma dictInsert_not_mem {κ α : Type} [BEq κ] [LawfulBEq κ]
    (d : List (κ × α)) (k : κ) (v : α) (h : k ∉ d.map Prod.fst) :
    dictInsert d k v = d ++ [(k, v)] := by
  unfold dictInsert
  rw [if_neg]
  intro hany
  simp only [List.any_eq_true, beq_iff_eq] at hany
  obtain ⟨p, hp, hpk⟩ := hany
  exact h (List.mem_map.mpr ⟨p, hp, hpk⟩)

lemma dictInsert_keys_mono {κ α : Type} [BEq κ] [LawfulBEq κ]
    (d : List (κ × α)) (k k₂ : κ) (v : α) (h : k ∈ d.map Prod.fst) :
    k ∈ (dictInsert d k₂ v).map Prod.fst := by
  unfold dictInsert
  split
  · simp only [List.map_map, List.mem_map] at h ⊢
    obtain ⟨p, hp, hpk⟩ := h
    refine ⟨p, hp, ?_⟩
    simp only [Function.comp]
    by_cases hpe : p.1 = k₂
    · have hb : (if p.1 == k₂ then (k₂, v) else p) = (k₂, v) := by simp [hpe]
      rw [hb, ← hpe]
      exact hpk
    · have hb : (if p.1 == k₂ then (k₂, v) else p) = p := by simp [hpe]
      rw [hb]
      exact hpk
  · rw [List.map_append]
    exact List.mem_append_left _ h

/-- C1: the claim says Bot._get_error_embed is total and never raises, with a
per-type (title, detail) pair for mapped types.  It is refuted by the code: the
error_map dict literal evaluates every entry's f-string on the one instance
before any lookup happens, so already the first entry's access to
error.close_quote raises AttributeError on a MissingRole instance (and on
every disnake error instance, since no error class carries all the attributes
the table's details reference). -/
theorem get_error_embed_missing_role_raises :
    get_error_embed missingRoleAdmin
      = Except.error (PyExn.attributeError "close_quote") := rfl

/-- C3: for every configuration document that is valid JSON and has a
string-valued TOKEN field, load_configs succeeds, stores the parsed mapping
unchanged, and get_token returns exactly that TOKEN string. -/
theorem load_configs_valid_token (fields : List (String × Json)) (t : String)
    (h : jlookup fields "TOKEN" = some (Json.jstr t)) :
    load_configs (ConfigRead.parsed (Json.jobj fields)) initConfigState
      = (⟨Json.jobj fields⟩, ConfigLoadOutcome.loadedOk)
    ∧ get_token ⟨Json.jobj fields⟩ = some (Json.jstr t) := by
  have hv : validateConfigSchema (Json.jobj fields) = true := by
    simp [validateConfigSchema, h]
  constructor
  · simp [load_configs, hv]
  · simp [get_token, h]

/-- Witness for C3 at the document from the spec's end-to-end scenario. -/
theorem load_configs_valid_token_witness :
    jlookup [("TOKEN", Json.jstr "abc")] "TOKEN" = some (Json.jstr "abc")
    ∧ (load_configs (ConfigRead.parsed (Json.jobj [("TOKEN", Json.jstr "abc")]))
          initConfigState
        = (⟨Json.jobj [("TOKEN", Json.jstr "abc")]⟩, ConfigLoadOutcome.loadedOk)
      ∧ get_token ⟨Json.jobj [("TOKEN", Json.jstr "abc")]⟩
          = some (Json.jstr "abc")) :=
  ⟨rfl, load_configs_valid_token [("TOKEN", Json.jstr "abc")] "abc" rfl⟩

/-- C4: a document lacking TOKEN or with a non-string TOKEN fails schema
validation; the stored configuration retains its prior empty value, the
accessor returns none, and a missing file or a parse failure likewise leaves
the stored state unchanged. -/
theorem load_configs_invalid_token (doc : Json)
    (h : docTokenMissingOrNonString doc = true) :
    load_configs (ConfigRead.parsed doc) initConfigState
      = (initConfigState, ConfigLoadOutcome.schemaError)
    ∧ get_token initConfigState = none
    ∧ (∀ st : ConfigState,
        (load_configs ConfigRead.missing st).1 = st
        ∧ (load_configs ConfigRead.invalidJson st).1 = st) := by
  have hv : validateConfigSchema doc = false := by
    cases doc with
    | jobj fields =>
      simp only [docTokenMissingOrNonString] at h
      simp only [validateConfigSchema]
      cases hj : jlookup fields "TOKEN" with
      | none => rfl
      | some v => rw [hj] at h; cases v <;> simp_all
    | null => rfl
    | jbool b => rfl
    | jnum n => rfl
    | jstr s => rfl
    | jarr xs => rfl
  refine ⟨?_, rfl, fun st => ⟨rfl, rfl⟩⟩
  simp [load_configs, hv]

/-- Witness for C4 at a document whose TOKEN is a number. -/
theorem load_configs_invalid_token_witness :
    docTokenMissingOrNonString (Json.jobj [("TOKEN", Json.jnum 5)]) = true
    ∧ (load_configs (ConfigRead.parsed (Json.jobj [("TOKEN", Json.jnum 5)]))
          initConfigState
        = (initConfigState, ConfigLoadOutcome.schemaError)
      ∧ get_token initConfigState = none
      ∧ (∀ st : ConfigState,
          (load_configs ConfigRead.missing st).1 = st
          ∧ (load_configs ConfigRead.invalidJson st).1 = st)) :=
  ⟨rfl, load_configs_invalid_token (Json.jobj [("TOKEN", Json.jnum 5)]) rfl⟩

/-- C5: the claim describes the happy end-to-end path (one loaded unit, zero
failures, hello replies).  The code cannot reach it: importing main.py runs the
utils.utils module body, which raises NameError on the unbound name Optional;
and independently, the dotted module name load_cogs would derive for the one
unit under a cogs directory resolved from an absolute working directory (here
/app) is ".app.cog.example", not the importable "cogs.example". -/
theorem startup_cannot_reach_happy_path :
    importMainModule = Except.error (PyExn.nameError "Optional")
    ∧ modulePath (osPathJoin "/app" "cogs") "example.py" = ".app.cog.example"
    ∧ ".app.cog.example" ≠ "cogs.example" := by
  refine ⟨rfl, rfl, ?_⟩
  decide

/-- C6: the claim says the handler sends the rendered missing-role message
ephemerally.  The code never reaches the send: on_slash_command_error calls
_get_error_embed, which raises AttributeError on the MissingRole instance
while evaluating the first table entry, so no message is sent at all. -/
theorem on_slash_command_error_missing_role_raises :
    on_slash_command_error missingRoleAdmin
      = Except.error (PyExn.attributeError "close_quote") := rfl

/-- C7 counterexample: the payload's title is not the string
"An error occurred" (nor does it start with it): it is the markdown-underlined
"__An error occurred__". -/
theorem create_error_embed_title_counterexample :
    (create_error_embed "Missing role" (some "detail")).title ≠ "An error occurred"
    ∧ "An error occurred".data.isPrefixOf
        (create_error_embed "Missing role" (some "detail")).title.data = false := by
  refine ⟨by decide, by decide⟩

/-- C7 amended: for every (title, detail) pair, the payload's title is exactly
"__An error occurred__" (the fixed text wrapped in markdown underline), and the
body is the "Error:" section holding the pair's title followed by an
"Additional info:" section exactly when the detail is non-empty. -/
theorem create_error_embed_shape (t d : String) :
    (create_error_embed t (some d)).title = "__An error occurred__"
    ∧ (create_error_embed t (some d)).description
        = "**Error:**\n" ++ t ++ "\n\n" ++
            (if d = "" then "" else "**Additional info:**\n" ++ d) :=
  ⟨rfl, rfl⟩

/-- C8: importing src/utils/utils.py raises NameError: evaluating the return
annotation of ConfigManager.get_token requires the name Optional, which the
module never imports; the module body aborts there, so the module's classes
are never created. -/
theorem import_utils_raises_nameError :
    importUtilsModule = Except.error (PyExn.nameError "Optional") := rfl

/-- C10: for a CogManager built from an absolute working directory (getcwd
always yields a path starting with '/'), the dotted module name passed to
load_extension — the absolute cogs directory path with '/' replaced by '.' and
its final character removed, joined by '.' to the file's stem — starts with a
'.', so it never equals the "cogs.<stem>" key under which the same unit's
failure would be recorded. -/
theorem modulePath_ne_errorKey (cwd file : String)
    (h : cwd.data.head? = some '/') :
    modulePath (CogManager.init cwd).path file ≠ errorKey file := by
  rcases hcd : cwd.data with _ | ⟨c, cr⟩
  · rw [hcd] at h
    exact absurd h (by simp)
  · rw [hcd] at h
    have hc : c = '/' := by simpa using h
    subst hc
    have hp : ∃ rest : List Char,
        (osPathJoin cwd "cogs").data = '/' :: rest ∧ 4 ≤ rest.length := by
      unfold osPathJoin
      by_cases he : cwd = ""
      · subst he
        simp at hcd
      · rw [if_neg he]
        by_cases hlast : cwd.data.getLast? = some '/'
        · rw [if_pos hlast]
          refine ⟨cr ++ "cogs".data, ?_, by simp⟩
          rw [String.data_append, hcd]
          rfl
        · rw [if_neg hlast]
          refine ⟨cr ++ ('/' :: "cogs".data), ?_, by simp⟩
          rw [String.data_append, String.data_append, hcd]
          simp
    obtain ⟨rest, hpd, hlen⟩ := hp
    have hmap : (pyReplace (osPathJoin cwd "cogs") "/" ".").data
        = '.' :: rest.map (fun ch => if ch = '/' then '.' else ch) := by
      rw [pyReplace_slash_data, hpd]
      simp
    have hdrop : (pySliceDropRight (pyReplace (osPathJoin cwd "cogs") "/" ".") 1).data
        = '.' :: (rest.map (fun ch => if ch = '/' then '.' else ch)).take
            ((rest.map (fun ch => if ch = '/' then '.' else ch)).length - 1) := by
      show (pyReplace (osPathJoin cwd "cogs") "/" ".").data.take
          ((pyReplace (osPathJoin cwd "cogs") "/" ".").data.length - 1) = _
      rw [hmap]
      have h1 : ('.' :: rest.map (fun ch => if ch = '/' then '.' else ch)).length - 1
          = (rest.map (fun ch => if ch = '/' then '.' else ch)).length := by
        simp
      rw [h1]
      have h2 : 1 ≤ (rest.map (fun ch => if ch = '/' then '.' else ch)).length := by
        rw [List.length_map]
        omega
      obtain ⟨k, hk⟩ : ∃ k, (rest.map (fun ch => if ch = '/' then '.' else ch)).length
          = k + 1 :=
        ⟨(rest.map (fun ch => if ch = '/' then '.' else ch)).length - 1, by omega⟩
      rw [hk, List.take_succ_cons]
      simp
    intro heq
    have hd := congrArg String.data heq
    have hpath : (CogManager.init cwd).path = osPathJoin cwd "cogs" := rfl
    unfold modulePath errorKey at hd
    rw [hpath, String.data_append, String.data_append, String.data_append, hdrop] at hd
    rw [List.cons_append, List.cons_append] at hd
    have hcogs : "cogs.".data = 'c' :: "ogs.".data := rfl
    rw [hcogs, List.cons_append] at hd
    injection hd with h1 _
    exact absurd h1 (by decide)

/-- Witness for C10 at the working directory "/home/bot" and the candidate
file "example.py". -/
theorem modulePath_ne_errorKey_witness :
    "/home/bot".data.head? = some '/'
    ∧ modulePath (CogManager.init "/home/bot").path "example.py"
        ≠ errorKey "example.py" :=
  ⟨rfl, modulePath_ne_errorKey "/home/bot" "example.py" rfl⟩

lemma loadCogsAux_char (env : LoadEnv) (path : String) :
    ∀ (files : List String) (m : CogManager) (bot : BotState),
      m.path = path →
      files.Nodup →
      (∀ f ∈ files, pyEndsWith f ".py" = true → modulePath path f ∉ bot.loaded) →
      (∀ f ∈ files, pyEndsWith f ".py" = true → errorKey f ∉ m.errors.map Prod.fst) →
      (loadCogsAux env files m bot).1.cogs
          = m.cogs ++ files.filter (loadedPred env path)
      ∧ (loadCogsAux env files m bot).1.errors
          = m.errors ++ files.filterMap (failEntry env path) := by
  intro files
  induction files with
  | nil =>
    intro m bot _ _ _ _
    simp [loadCogsAux]
  | cons f fs ih =>
    intro m bot hpath hnd hbot herr
    have hfnot : f ∉ fs := (List.nodup_cons.mp hnd).1
    have hndfs : fs.Nodup := (List.nodup_cons.mp hnd).2
    by_cases hf : pyEndsWith f ".py" = true
    · have hmp : modulePath m.path f = modulePath path f := by rw [hpath]
      have hnotloaded : modulePath path f ∉ bot.loaded := hbot f (by simp) hf
      cases henv : env (modulePath path f) with
      | none =>
        have hle : load_extension env bot (modulePath m.path f)
            = Except.ok ⟨bot.loaded ++ [modulePath path f]⟩ := by
          rw [hmp]
          unfold load_extension
          rw [if_neg hnotloaded, henv]
        have hstep : loadCogsAux env (f :: fs) m bot
            = loadCogsAux env fs { m with cogs := m.cogs ++ [f] }
                ⟨bot.loaded ++ [modulePath path f]⟩ := by
          simp [loadCogsAux, hf, hle]
        have hbot2 : ∀ g ∈ fs, pyEndsWith g ".py" = true →
            modulePath path g ∉ (bot.loaded ++ [modulePath path f]) := by
          intro g hg hgpy hmem
          rcases List.mem_append.mp hmem with hin | hin
          · exact hbot g (by simp [hg]) hgpy hin
          · have : modulePath path g = modulePath path f := by simpa using hin
            exact hfnot (modulePath_inj path g f hgpy hf this ▸ hg)
        have herr2 : ∀ g ∈ fs, pyEndsWith g ".py" = true →
            errorKey g ∉ ({ m with cogs := m.cogs ++ [f] } : CogManager).errors.map
              Prod.fst := by
          intro g hg hgpy
          exact herr g (by simp [hg]) hgpy
        obtain ⟨hc, he⟩ := ih { m with cogs := m.cogs ++ [f] }
          ⟨bot.loaded ++ [modulePath path f]⟩ hpath hndfs hbot2 herr2
        rw [hstep, hc, he]
        constructor
        · rw [List.filter_cons]
          have : loadedPred env path f = true := by simp [loadedPred, hf, henv]
          simp [this]
        · rw [List.filterMap_cons]
          have : failEntry env path f = none := by simp [failEntry, hf, henv]
          simp [this]
      | some e =>
        have hle : load_extension env bot (modulePath m.path f)
            = Except.error e := by
          rw [hmp]
          unfold load_extension
          rw [if_neg hnotloaded, henv]
        have hkey : errorKey f ∉ m.errors.map Prod.fst := herr f (by simp) hf
        have hdins : dictInsert m.errors (errorKey f) e
            = m.errors ++ [(errorKey f, e)] := dictInsert_not_mem _ _ _ hkey
        have hstep : loadCogsAux env (f :: fs) m bot
            = loadCogsAux env fs
                { m with errors := dictInsert m.errors (errorKey f) e } bot := by
          simp [loadCogsAux, hf, hle]
        have hbot2 : ∀ g ∈ fs, pyEndsWith g ".py" = true →
            modulePath path g ∉ bot.loaded := by
          intro g hg hgpy
          exact hbot g (by simp [hg]) hgpy
        have herr2 : ∀ g ∈ fs, pyEndsWith g ".py" = true →
            errorKey g ∉ (dictInsert m.errors (errorKey f) e).map Prod.fst := by
          intro g hg hgpy hmem
          rw [hdins, List.map_append] at hmem
          rcases List.mem_append.mp hmem with hin | hin
          · exact herr g (by simp [hg]) hgpy hin
          · have : errorKey g = errorKey f := by simpa using hin
            exact hfnot (errorKey_inj g f hgpy hf this ▸ hg)
        obtain ⟨hc, he⟩ := ih
          { m with errors := dictInsert m.errors (errorKey f) e } bot
          hpath hndfs hbot2 herr2
        rw [hstep, hc, he, hdins]
        constructor
        · rw [List.filter_cons]
          have : loadedPred env path f = false := by simp [loadedPred, hf, henv]
          simp [this]
        · rw [List.filterMap_cons]
          have : failEntry env path f = some (errorKey f, e) := by
            simp [failEntry, hf, henv]
          simp [this]
    · have hstep : loadCogsAux env (f :: fs) m bot = loadCogsAux env fs m bot := by
        simp [loadCogsAux, hf]
      obtain ⟨hc, he⟩ := ih m bot hpath hndfs
        (fun g hg hgpy => hbot g (by simp [hg]) hgpy)
        (fun g hg hgpy => herr g (by simp [hg]) hgpy)
      rw [hstep, hc, he]
      have hf0 : pyEndsWith f ".py" = false := by simpa using hf
      constructor
      · rw [List.filter_cons]
        have : loadedPred env path f = false := by simp [loadedPred, hf0]
        simp [this]
      · rw [List.filterMap_cons]
        have : failEntry env path f = none := by simp [failEntry, hf0]
        simp [this]

lemma length_filterMap_failEntry (env : LoadEnv) (path : String)
    (l : List String) :
    (l.filterMap (failEntry env path)).length
      = (l.filter fun f =>
          pyEndsWith f ".py" && (env (modulePath path f)).isSome).length := by
  induction l with
  | nil => rfl
  | cons f fs ih =>
    rw [List.filterMap_cons, List.filter_cons]
    by_cases hf : pyEndsWith f ".py" = true
    · cases henv : env (modulePath path f) with
      | none => simp [failEntry, hf, henv, ih]
      | some e => simp [failEntry, hf, henv, ih]
    · have hf0 : pyEndsWith f ".py" = false := by simpa using hf
      simp [failEntry, hf0, ih]

lemma length_filter_py_split (env : LoadEnv) (path : String) (l : List String) :
    (l.filter (loadedPred env path)).length
      + (l.filter fun f =>
          pyEndsWith f ".py" && (env (modulePath path f)).isSome).length
      = (l.filter fun f => pyEndsWith f ".py").length := by
  induction l with
  | nil => rfl
  | cons f fs ih =>
    rw [List.filter_cons, List.filter_cons, List.filter_cons]
    by_cases hf : pyEndsWith f ".py" = true
    · cases henv : env (modulePath path f) with
      | none =>
        have h1 : loadedPred env path f = true := by simp [loadedPred, hf, henv]
        simp [h1, hf, henv]
        omega
      | some e =>
        have h1 : loadedPred env path f = false := by simp [loadedPred, hf, henv]
        simp [h1, hf, henv]
        omega
    · have hf0 : pyEndsWith f ".py" = false := by simpa using hf
      have h1 : loadedPred env path f = false := by simp [loadedPred, hf0]
      simp [h1, hf0, ih]

/-- C2: one call of load_cogs on a fresh manager over a directory listing
(distinct names, as os.listdir yields) returns as loaded exactly the
".py" files whose import raises nothing, records exactly one failures entry
for each ".py" file whose import raises, and the two counts add up to the
total number of ".py" units; the call is a total function (each unit's
exception is caught and recorded, so one unit's failure never prevents the
later units from being attempted and nothing propagates out of the call). -/
theorem load_cogs_accounting (env : LoadEnv) (path : String)
    (dirFiles : List String) (hnodup : dirFiles.Nodup) :
    (load_cogs env dirFiles (freshCogManager path) ⟨[]⟩).1.cogs
        = dirFiles.filter (loadedPred env path)
    ∧ (load_cogs env dirFiles (freshCogManager path) ⟨[]⟩).1.errors
        = dirFiles.filterMap (failEntry env path)
    ∧ (load_cogs env dirFiles (freshCogManager path) ⟨[]⟩).1.cogs.length
        + (load_cogs env dirFiles (freshCogManager path) ⟨[]⟩).1.errors.length
      = (dirFiles.filter fun f => pyEndsWith f ".py").length := by
  obtain ⟨hc, he⟩ := loadCogsAux_char env path dirFiles (freshCogManager path)
    ⟨[]⟩ rfl hnodup (by intro f _ _; simp) (by intro f _ _; simp [freshCogManager])
  have hc2 : (load_cogs env dirFiles (freshCogManager path) ⟨[]⟩).1.cogs
      = dirFiles.filter (loadedPred env path) := by
    rw [load_cogs, hc]
    simp [freshCogManager]
  have he2 : (load_cogs env dirFiles (freshCogManager path) ⟨[]⟩).1.errors
      = dirFiles.filterMap (failEntry env path) := by
    rw [load_cogs, he]
    simp [freshCogManager]
  refine ⟨hc2, he2, ?_⟩
  rw [hc2, he2, length_filterMap_failEntry]
  exact length_filter_py_split env path dirFiles

/-- The import behaviour used by the C2 witness: the unit bad.py raises on
load, every other module imports cleanly. -/
def witnessLoadEnv : LoadEnv := fun p =>
  if p = modulePath "/bot/cogs" "bad.py" then some (PyExn.otherExn "boom")
  else none

/-- Witness for C2 over a listing with one loadable unit, one raising unit
and one non-".py" file. -/
theorem load_cogs_accounting_witness :
    (["good.py", "bad.py", "notes.txt"] : List String).Nodup
    ∧ ((load_cogs witnessLoadEnv ["good.py", "bad.py", "notes.txt"]
          (freshCogManager "/bot/cogs") ⟨[]⟩).1.cogs
        = ["good.py", "bad.py", "notes.txt"].filter (loadedPred witnessLoadEnv "/bot/cogs")
      ∧ (load_cogs witnessLoadEnv ["good.py", "bad.py", "notes.txt"]
          (freshCogManager "/bot/cogs") ⟨[]⟩).1.errors
        = ["good.py", "bad.py", "notes.txt"].filterMap (failEntry witnessLoadEnv "/bot/cogs")
      ∧ (load_cogs witnessLoadEnv ["good.py", "bad.py", "notes.txt"]
            (freshCogManager "/bot/cogs") ⟨[]⟩).1.cogs.length
          + (load_cogs witnessLoadEnv ["good.py", "bad.py", "notes.txt"]
              (freshCogManager "/bot/cogs") ⟨[]⟩).1.errors.length
        = ((["good.py", "bad.py", "notes.txt"] : List String).filter
            fun f => pyEndsWith f ".py").length) :=
  ⟨by decide,
    load_cogs_accounting witnessLoadEnv "/bot/cogs" ["good.py", "bad.py", "notes.txt"]
      (by decide)⟩

lemma loadCogsAux_cogs_mono (env : LoadEnv) :
    ∀ (files : List String) (m : CogManager) (bot : BotState),
      ∃ t, (loadCogsAux env files m bot).1.cogs = m.cogs ++ t := by
  intro files
  induction files with
  | nil =>
    intro m bot
    exact ⟨[], by simp [loadCogsAux]⟩
  | cons f fs ih =>
    intro m bot
    by_cases hf : pyEndsWith f ".py" = true
    · cases hle : load_extension env bot (modulePath m.path f) with
      | ok bot2 =>
        obtain ⟨t, ht⟩ := ih { m with cogs := m.cogs ++ [f] } bot2
        refine ⟨f :: t, ?_⟩
        simp only [loadCogsAux, hf, if_true, hle]
        rw [ht]
        simp
      | error e =>
        obtain ⟨t, ht⟩ := ih
          { m with errors := dictInsert m.errors (errorKey f) e } bot
        refine ⟨t, ?_⟩
        simp only [loadCogsAux, hf, if_true, hle]
        exact ht
    · obtain ⟨t, ht⟩ := ih m bot
      refine ⟨t, ?_⟩
      simp only [loadCogsAux, hf]
      simpa [hf] using ht

lemma loadCogsAux_errors_keys_mono (env : LoadEnv) :
    ∀ (files : List String) (m : CogManager) (bot : BotState) (k : String),
      k ∈ m.errors.map Prod.fst →
      k ∈ (loadCogsAux env files m bot).1.errors.map Prod.fst := by
  intro files
  induction files with
  | nil =>
    intro m bot k hk
    simpa [loadCogsAux] using hk
  | cons f fs ih =>
    intro m bot k hk
    by_cases hf : pyEndsWith f ".py" = true
    · cases hle : load_extension env bot (modulePath m.path f) with
      | ok bot2 =>
        simp only [loadCogsAux, hf, if_true, hle]
        exact ih { m with cogs := m.cogs ++ [f] } bot2 k hk
      | error e =>
        simp only [loadCogsAux, hf, if_true, hle]
        exact ih { m with errors := dictInsert m.errors (errorKey f) e } bot k
          (dictInsert_keys_mono m.errors k (errorKey f) e hk)
    · simp only [loadCogsAux, hf]
      simpa [hf] using ih m bot k hk

/-- C9: the loaded-names list and the failures mapping are instance fields
that load_cogs never clears, so over any CogManager state, the collections
returned by a second call over the same directory contain every entry (list
element, failures key) returned by the first call. -/
theorem load_cogs_second_call_cumulative (env : LoadEnv) (dirFiles : List String)
    (m : CogManager) (bot : BotState) :
    (∃ t, (load_cogs env dirFiles (load_cogs env dirFiles m bot).1
            (load_cogs env dirFiles m bot).2).1.cogs
          = (load_cogs env dirFiles m bot).1.cogs ++ t)
    ∧ (∀ k, k ∈ (load_cogs env dirFiles m bot).1.errors.map Prod.fst →
        k ∈ (load_cogs env dirFiles (load_cogs env dirFiles m bot).1
              (load_cogs env dirFiles m bot).2).1.errors.map Prod.fst) :=
  ⟨loadCogsAux_cogs_mono env dirFiles _ _,
    fun k hk => loadCogsAux_errors_keys_mono env dirFiles _ _ k hk⟩

end DisnakeBot
